import Mathlib

/-!
Verification of the qr-factory bar-replay backtesting engine.

This file shallowly embeds the core of the repository in Lean 4:
  * `src/risk/drawdown.py`        — `compute_drawdown_pct`, `DrawdownTracker`
  * `src/risk/risk_manager.py`    — `RiskConfig`, `RiskAction`, `RiskManager`
  * `src/engine/core.py`          — `_execute_order`, `TradingEngine.process_bar`
  * `src/indicators/core/pipeline.py` — `FeatureSpec`, `FeaturePipeline`
  * `src/replay/validation.py`    — `validate_bars`

Python floats are modelled as rationals (`ℚ`): every quantity the claims
touch is produced by field arithmetic and comparisons, which ℚ models
exactly.  Machine-level IEEE-754 rounding is out of scope.
-/

/-! ## Timestamps

`pd.Timestamp` is modelled by its calendar fields plus its ISO rendering.
The risk manager only uses `.date()` (here `(year, month, day)`),
`.year`/`.month`, and `.isoformat()` (here the `iso` field). -/

structure Ts where
  year : Int
  month : Int
  day : Int
  iso : String
deriving DecidableEq

/-- `pd.Timestamp.date()` — the calendar-date key used for daily resets. -/
def Ts.date (t : Ts) : Int × Int × Int := (t.year, t.month, t.day)

/-- The `(year, month)` key used for monthly resets. -/
def Ts.ym (t : Ts) : Int × Int := (t.year, t.month)

/-! ## `src/risk/drawdown.py` -/

/-- `compute_drawdown_pct(peak, current)`:
`(peak - current) / peak * 100` clamped at 0, and 0 when `peak <= 0`. -/
def compute_drawdown_pct (peak current : ℚ) : ℚ :=
  if peak ≤ 0 then 0
  else max ((peak - current) / peak * 100) 0

/-- `DrawdownState` — frozen snapshot returned by `DrawdownTracker.update`. -/
structure DrawdownState where
  peak_equity : ℚ
  current_drawdown_pct : ℚ
  max_drawdown_pct : ℚ
deriving DecidableEq

/-- The mutable fields of a `DrawdownTracker` (`_peak_equity`,
`_max_drawdown_pct`). -/
structure DrawdownTracker where
  peak_equity : ℚ
  max_drawdown_pct : ℚ
deriving DecidableEq

/-- `DrawdownTracker.__init__(initial_equity)`. -/
def DrawdownTracker.init (initial_equity : ℚ) : DrawdownTracker :=
  ⟨initial_equity, 0⟩

/-- `DrawdownTracker.update(current_equity)` — returns the updated tracker
together with the `DrawdownState` snapshot. -/
def DrawdownTracker.update (t : DrawdownTracker) (current_equity : ℚ) :
    DrawdownTracker × DrawdownState :=
  let peak := if current_equity > t.peak_equity then current_equity else t.peak_equity
  let dd_pct := compute_drawdown_pct peak current_equity
  let maxdd := if dd_pct > t.max_drawdown_pct then dd_pct else t.max_drawdown_pct
  (⟨peak, maxdd⟩, ⟨peak, dd_pct, maxdd⟩)

/-- Replay a whole equity sequence through one tracker, pairing each input
equity with the returned snapshot. -/
def DrawdownTracker.run (t : DrawdownTracker) : List ℚ → List (ℚ × DrawdownState)
  | [] => []
  | e :: es =>
    let u := DrawdownTracker.update t e
    (e, u.2) :: DrawdownTracker.run u.1 es

/-! ### Drawdown helper lemmas -/

theorem compute_drawdown_pct_nonneg (peak current : ℚ) :
    0 ≤ compute_drawdown_pct peak current := by
  unfold compute_drawdown_pct
  split
  · exact le_refl 0
  · exact le_max_right _ _

theorem compute_drawdown_pct_of_peak_le (peak current : ℚ) (h : peak ≤ current) :
    compute_drawdown_pct peak current = 0 := by
  unfold compute_drawdown_pct
  split
  · rfl
  · rename_i hp
    push_neg at hp
    have h1 : (peak - current) / peak ≤ 0 :=
      div_nonpos_iff.mpr (Or.inr ⟨sub_nonpos.mpr h, hp.le⟩)
    have h2 : (peak - current) / peak * 100 ≤ 0 := by nlinarith
    exact max_eq_right h2

theorem DrawdownTracker.update_peak (t : DrawdownTracker) (e : ℚ) :
    (DrawdownTracker.update t e).1.peak_equity = max t.peak_equity e ∧
    (DrawdownTracker.update t e).2.peak_equity = max t.peak_equity e := by
  simp only [DrawdownTracker.update]
  constructor <;>
  · split <;> rename_i h
    · exact (max_eq_right (le_of_lt h)).symm
    · exact (max_eq_left (not_lt.mp h)).symm

theorem DrawdownTracker.update_maxdd_mono (t : DrawdownTracker) (e : ℚ) :
    t.max_drawdown_pct ≤ (DrawdownTracker.update t e).1.max_drawdown_pct ∧
    (DrawdownTracker.update t e).2.max_drawdown_pct =
      (DrawdownTracker.update t e).1.max_drawdown_pct := by
  refine ⟨?_, rfl⟩
  simp only [DrawdownTracker.update]
  split_ifs with h1 h2 h3
  · exact le_of_lt h2
  · exact le_refl _
  · exact le_of_lt h3
  · exact le_refl _

theorem DrawdownTracker.run_head_peak (t : DrawdownTracker) (es : List ℚ) :
    ∀ x ∈ (DrawdownTracker.run t es).head?, t.peak_equity ≤ x.2.peak_equity := by
  cases es with
  | nil => intro x hx; simp [DrawdownTracker.run] at hx
  | cons e es =>
    intro x hx
    simp only [DrawdownTracker.run, List.head?_cons, Option.mem_def,
      Option.some.injEq] at hx
    subst hx
    rw [(DrawdownTracker.update_peak t e).2]
    exact le_max_left _ _

theorem DrawdownTracker.run_head_maxdd (t : DrawdownTracker) (es : List ℚ) :
    ∀ x ∈ (DrawdownTracker.run t es).head?, t.max_drawdown_pct ≤ x.2.max_drawdown_pct := by
  cases es with
  | nil => intro x hx; simp [DrawdownTracker.run] at hx
  | cons e es =>
    intro x hx
    simp only [DrawdownTracker.run, List.head?_cons, Option.mem_def,
      Option.some.injEq] at hx
    subst hx
    rw [(DrawdownTracker.update_maxdd_mono t e).2]
    exact (DrawdownTracker.update_maxdd_mono t e).1

theorem DrawdownTracker.run_chain_peak (es : List ℚ) :
    ∀ t : DrawdownTracker, List.Chain'
      (fun a b => a.2.peak_equity ≤ b.2.peak_equity) (DrawdownTracker.run t es) := by
  induction es with
  | nil => intro t; simp [DrawdownTracker.run]
  | cons e es ih =>
    intro t
    simp only [DrawdownTracker.run]
    rw [List.chain'_cons']
    refine ⟨?_, ih _⟩
    intro y hy
    have h := DrawdownTracker.run_head_peak (DrawdownTracker.update t e).1 es y hy
    rw [(DrawdownTracker.update_peak t e).2]
    rw [(DrawdownTracker.update_peak t e).1] at h
    exact h

theorem DrawdownTracker.run_chain_maxdd (es : List ℚ) :
    ∀ t : DrawdownTracker, List.Chain'
      (fun a b => a.2.max_drawdown_pct ≤ b.2.max_drawdown_pct)
      (DrawdownTracker.run t es) := by
  induction es with
  | nil => intro t; simp [DrawdownTracker.run]
  | cons e es ih =>
    intro t
    simp only [DrawdownTracker.run]
    rw [List.chain'_cons']
    refine ⟨?_, ih _⟩
    intro y hy
    have h := DrawdownTracker.run_head_maxdd (DrawdownTracker.update t e).1 es y hy
    rw [(DrawdownTracker.update_maxdd_mono t e).2]
    exact h

theorem DrawdownTracker.run_dd (es : List ℚ) :
    ∀ t : DrawdownTracker, ∀ pr ∈ DrawdownTracker.run t es,
      0 ≤ pr.2.current_drawdown_pct ∧
      (pr.2.peak_equity ≤ pr.1 → pr.2.current_drawdown_pct = 0) := by
  induction es with
  | nil => intro t pr hpr; simp [DrawdownTracker.run] at hpr
  | cons e es ih =>
    intro t pr hpr
    simp only [DrawdownTracker.run, List.mem_cons] at hpr
    rcases hpr with h | h
    · subst h
      refine ⟨compute_drawdown_pct_nonneg _ _, ?_⟩
      intro hle
      exact compute_drawdown_pct_of_peak_le _ _ hle
    · exact ih _ pr h

/-- Claim C6: `compute_drawdown_pct(peak, current)` equals
`(peak − current) / peak × 100` clamped below at 0 when `peak > 0`, and
equals 0 whenever `peak ≤ 0`; in particular
`compute_drawdown_pct(0, 50) = 0` and `compute_drawdown_pct(100, 120) = 0`. -/
theorem C6_compute_drawdown_pct_spec :
    (∀ peak current : ℚ, compute_drawdown_pct peak current =
      if 0 < peak then max 0 ((peak - current) / peak * 100) else 0) ∧
    compute_drawdown_pct 0 50 = 0 ∧ compute_drawdown_pct 100 120 = 0 := by
  refine ⟨fun peak current => ?_, by decide, ?_⟩
  · unfold compute_drawdown_pct
    rcases le_or_lt peak 0 with h | h
    · rw [if_pos h, if_neg (not_lt.mpr h)]
    · rw [if_neg (not_le.mpr h), if_pos h, max_comm]
  · show compute_drawdown_pct 100 120 = 0
    exact compute_drawdown_pct_of_peak_le 100 120 (by norm_num)

/-- Claim C7: over any sequence of `DrawdownTracker.update` calls on one
tracker, the returned `peak_equity` is non-decreasing step to step, the
returned `max_drawdown_pct` is non-decreasing step to step, and every
returned `current_drawdown_pct` is ≥ 0 (and is 0 whenever the equity fed
to that call is at or above the returned peak). -/
theorem C7_tracker_monotone (t : DrawdownTracker) (es : List ℚ) :
    List.Chain' (fun a b => a.2.peak_equity ≤ b.2.peak_equity)
      (DrawdownTracker.run t es) ∧
    List.Chain' (fun a b => a.2.max_drawdown_pct ≤ b.2.max_drawdown_pct)
      (DrawdownTracker.run t es) ∧
    ∀ pr ∈ DrawdownTracker.run t es,
      0 ≤ pr.2.current_drawdown_pct ∧
      (pr.2.peak_equity ≤ pr.1 → pr.2.current_drawdown_pct = 0) :=
  ⟨DrawdownTracker.run_chain_peak es t, DrawdownTracker.run_chain_maxdd es t,
    DrawdownTracker.run_dd es t⟩

/-- Witness for C7 at the spec's literal equity sequence `[100,120,90,130]`. -/
theorem C7_tracker_monotone_witness :
    List.Chain' (fun a b => a.2.peak_equity ≤ b.2.peak_equity)
      (DrawdownTracker.run ⟨100, 0⟩ [100, 120, 90, 130]) ∧
    List.Chain' (fun a b => a.2.max_drawdown_pct ≤ b.2.max_drawdown_pct)
      (DrawdownTracker.run ⟨100, 0⟩ [100, 120, 90, 130]) ∧
    ∀ pr ∈ DrawdownTracker.run ⟨100, 0⟩ [100, 120, 90, 130],
      0 ≤ pr.2.current_drawdown_pct ∧
      (pr.2.peak_equity ≤ pr.1 → pr.2.current_drawdown_pct = 0) :=
  C7_tracker_monotone ⟨100, 0⟩ [100, 120, 90, 130]

/-! ## `src/risk/risk_manager.py` -/

/-- Two-decimal fixed-point rendering of a rational, standing in for
Python's `f"{x:.2f}"` (Python rounds ties to even at the IEEE-754 level;
no tie arises in any statement below). -/
def fmt2 (q : ℚ) : String :=
  let n : Int := round (|q| * 100)
  let whole := n / 100
  let frac := n % 100
  let fs := if frac < 10 then "0" ++ toString frac else toString frac
  (if q < 0 then "-" else "") ++ toString whole ++ "." ++ fs

/-- `RiskConfig` — `None` disables the corresponding check. -/
structure RiskConfig where
  max_drawdown_pct : Option ℚ
  daily_dd_limit : Option ℚ
  monthly_dd_limit : Option ℚ
deriving DecidableEq

/-- `RiskAction` — per-bar instruction returned to the engine. -/
structure RiskAction where
  flatten : Bool
  halted : Bool
  reason : String
deriving DecidableEq

/-- The mutable fields of a `RiskManager` (its `__init__` state). -/
structure RiskManager where
  cfg : RiskConfig
  starting_capital : ℚ
  global_tracker : DrawdownTracker
  risk_halted : Bool
  risk_halted_at : Option String
  daily_paused : Bool
  current_day : Option (Int × Int × Int)
  day_start_equity : ℚ
  daily_halts : Nat
  monthly_paused : Bool
  current_month : Option (Int × Int)
  month_start_equity : ℚ
  monthly_halts : Nat
  last_equity_close : ℚ
deriving DecidableEq

/-- `RiskManager.__init__(config, starting_capital)`. -/
def RiskManager.init (config : RiskConfig) (starting_capital : ℚ) : RiskManager :=
  ⟨config, starting_capital, DrawdownTracker.init starting_capital,
    false, none, false, none, starting_capital, 0,
    false, none, starting_capital, 0, starting_capital⟩

/-- Step 0 of `RiskManager.update`: period-boundary resets (daily, then
monthly), seeding each new period's baseline from the previous bar's MTM
equity (`_last_equity_close`). -/
def RiskManager.period_reset (s : RiskManager) (bar_ts : Ts) : RiskManager :=
  let s1 := if some bar_ts.date ≠ s.current_day then
      { s with daily_paused := false, current_day := some bar_ts.date,
               day_start_equity := s.last_equity_close }
    else s
  if some bar_ts.ym ≠ s1.current_month then
    { s1 with monthly_paused := false, current_month := some bar_ts.ym,
              month_start_equity := s1.last_equity_close }
  else s1

/-- Step 1 of `RiskManager.update`: the global drawdown check.  Returns
whether the check fired together with its reason fragment.  `dd` is the
`current_drawdown_pct` just produced by the global tracker. -/
def RiskManager.global_check (s : RiskManager) (dd : ℚ) : Bool × List String :=
  if s.risk_halted then (false, [])
  else match s.cfg.max_drawdown_pct with
    | some lim =>
      if dd ≥ lim then
        (true, ["Global DD " ++ fmt2 dd ++ "% >= limit " ++ fmt2 lim ++ "%"])
      else (false, [])
    | none => (false, [])

/-- Step 2 of `RiskManager.update`: the daily drawdown check. -/
def RiskManager.daily_check (s : RiskManager) (current_equity : ℚ) : Bool × List String :=
  if s.daily_paused then (false, [])
  else match s.cfg.daily_dd_limit with
    | some lim =>
      if s.day_start_equity > 0 then
        let daily_dd := compute_drawdown_pct s.day_start_equity current_equity
        if daily_dd ≥ lim then
          (true, ["Daily DD " ++ fmt2 daily_dd ++ "% >= limit " ++ fmt2 lim ++ "%"])
        else (false, [])
      else (false, [])
    | none => (false, [])

/-- Step 3 of `RiskManager.update`: the monthly drawdown check. -/
def RiskManager.monthly_check (s : RiskManager) (current_equity : ℚ) : Bool × List String :=
  if s.monthly_paused then (false, [])
  else match s.cfg.monthly_dd_limit with
    | some lim =>
      if s.month_start_equity > 0 then
        let monthly_dd := compute_drawdown_pct s.month_start_equity current_equity
        if monthly_dd ≥ lim then
          (true, ["Monthly DD " ++ fmt2 monthly_dd ++ "% >= limit " ++ fmt2 lim ++ "%"])
        else (false, [])
      else (false, [])
    | none => (false, [])

/-- `RiskManager.update(bar_ts, current_equity)` — returns the updated
manager state together with the `RiskAction` for this bar. -/
def RiskManager.update (s0 : RiskManager) (bar_ts : Ts) (current_equity : ℚ) :
    RiskManager × RiskAction :=
  let s1 := RiskManager.period_reset s0 bar_ts
  let tu := DrawdownTracker.update s1.global_tracker current_equity
  let s2 := { s1 with global_tracker := tu.1 }
  let g := RiskManager.global_check s2 tu.2.current_drawdown_pct
  let s3 := if g.1 then
      { s2 with risk_halted := true, risk_halted_at := some bar_ts.iso }
    else s2
  let d := RiskManager.daily_check s3 current_equity
  let s4 := if d.1 then
      { s3 with daily_paused := true, daily_halts := s3.daily_halts + 1 }
    else s3
  let m := RiskManager.monthly_check s4 current_equity
  let s5 := if m.1 then
      { s4 with monthly_paused := true, monthly_halts := s4.monthly_halts + 1 }
    else s4
  let flatten := g.1 || d.1 || m.1 ||
    s5.risk_halted || s5.daily_paused || s5.monthly_paused
  let s6 := { s5 with last_equity_close := current_equity }
  (s6, ⟨flatten, s5.risk_halted, String.intercalate "; " (g.2 ++ d.2 ++ m.2)⟩)

/-- Replay a list of `(bar_ts, equity)` calls through one manager,
collecting the returned actions. -/
def RiskManager.run (s : RiskManager) : List (Ts × ℚ) → List RiskAction
  | [] => []
  | (ts, e) :: rest =>
    let u := RiskManager.update s ts e
    u.2 :: RiskManager.run u.1 rest

/-! ### Risk manager helper lemmas -/

theorem RiskManager.period_reset_fixed (s : RiskManager) (ts : Ts) :
    (RiskManager.period_reset s ts).cfg = s.cfg ∧
    (RiskManager.period_reset s ts).global_tracker = s.global_tracker ∧
    (RiskManager.period_reset s ts).risk_halted = s.risk_halted ∧
    (RiskManager.period_reset s ts).last_equity_close = s.last_equity_close := by
  simp only [RiskManager.period_reset]
  split_ifs <;> exact ⟨rfl, rfl, rfl, rfl⟩

theorem RiskManager.update_halted_mono (s : RiskManager) (ts : Ts) (e : ℚ)
    (h : s.risk_halted = true) :
    (RiskManager.update s ts e).1.risk_halted = true ∧
    (RiskManager.update s ts e).2.halted = true ∧
    (RiskManager.update s ts e).2.flatten = true := by
  have h1 : (RiskManager.period_reset s ts).risk_halted = true :=
    (RiskManager.period_reset_fixed s ts).2.2.1.trans h
  refine ⟨?_, ?_, ?_⟩ <;>
  · simp only [RiskManager.update, RiskManager.global_check, h1]
    split_ifs <;> simp_all

theorem RiskManager.update_halted_of_fire (s : RiskManager) (ts : Ts) (e lim : ℚ)
    (hcfg : s.cfg.max_drawdown_pct = some lim)
    (hdd : (DrawdownTracker.update s.global_tracker e).2.current_drawdown_pct ≥ lim) :
    (RiskManager.update s ts e).1.risk_halted = true ∧
    (RiskManager.update s ts e).2.halted = true ∧
    (RiskManager.update s ts e).2.flatten = true := by
  rcases hb : s.risk_halted with _ | _
  · -- not yet halted: the global check fires on this call
    have h1 : (RiskManager.period_reset s ts).risk_halted = false :=
      (RiskManager.period_reset_fixed s ts).2.2.1.trans hb
    have h2 : (RiskManager.period_reset s ts).cfg = s.cfg :=
      (RiskManager.period_reset_fixed s ts).1
    have h3 : (RiskManager.period_reset s ts).global_tracker = s.global_tracker :=
      (RiskManager.period_reset_fixed s ts).2.1
    refine ⟨?_, ?_, ?_⟩ <;>
    · simp only [RiskManager.update, RiskManager.global_check, h1, h2, h3, hcfg,
        Bool.false_eq_true, if_false, ge_iff_le, hdd, if_true]
      split_ifs <;> simp_all
  · exact RiskManager.update_halted_mono s ts e hb

theorem RiskManager.run_halted (rest : List (Ts × ℚ)) :
    ∀ s : RiskManager, s.risk_halted = true →
      ∀ a ∈ RiskManager.run s rest, a.halted = true ∧ a.flatten = true := by
  induction rest with
  | nil => intro s _ a ha; simp [RiskManager.run] at ha
  | cons p rest ih =>
    intro s hs a ha
    obtain ⟨ts, e⟩ := p
    simp only [RiskManager.run, List.mem_cons] at ha
    rcases ha with h | h
    · subst h
      exact ⟨(RiskManager.update_halted_mono s ts e hs).2.1,
             (RiskManager.update_halted_mono s ts e hs).2.2⟩
    · exact ih _ (RiskManager.update_halted_mono s ts e hs).1 a h

theorem fmt2_ten : fmt2 10 = "10.00" := by
  norm_num [fmt2, round_eq]
  rfl

theorem String.intercalate_nil (s : String) : String.intercalate s [] = "" := rfl

theorem String.intercalate_single (s x : String) :
    String.intercalate s [x] = x := rfl

/-- Claim C4: once a `RiskManager.update` call observes a current global
drawdown ≥ the configured `max_drawdown_pct`, the manager is halted
permanently: that call and every subsequent call return a `RiskAction`
with `halted = true` and `flatten = true`, regardless of later equity.
Literal: `max_drawdown_pct = 10`, capital 1000, updates 1100 then 990
halt with reason containing "Global DD", and a later update to 2000
still reports `halted = true`. -/
theorem C4_global_halt_permanent (s : RiskManager) (ts : Ts) (e lim : ℚ)
    (rest : List (Ts × ℚ))
    (hcfg : s.cfg.max_drawdown_pct = some lim)
    (hdd : (DrawdownTracker.update s.global_tracker e).2.current_drawdown_pct ≥ lim) :
    ((RiskManager.update s ts e).2.halted = true ∧
     (RiskManager.update s ts e).2.flatten = true ∧
     ∀ a ∈ RiskManager.run (RiskManager.update s ts e).1 rest,
       a.halted = true ∧ a.flatten = true) ∧
    ((RiskManager.update (RiskManager.init ⟨some 10, none, none⟩ 1000)
        ⟨2024, 1, 1, "i1"⟩ 1100).2.halted = false ∧
     (RiskManager.update (RiskManager.update (RiskManager.init ⟨some 10, none, none⟩ 1000)
        ⟨2024, 1, 1, "i1"⟩ 1100).1 ⟨2024, 1, 1, "i2"⟩ 990).2.flatten = true ∧
     (RiskManager.update (RiskManager.update (RiskManager.init ⟨some 10, none, none⟩ 1000)
        ⟨2024, 1, 1, "i1"⟩ 1100).1 ⟨2024, 1, 1, "i2"⟩ 990).2.halted = true ∧
     (∃ a b : String,
       (RiskManager.update (RiskManager.update (RiskManager.init ⟨some 10, none, none⟩ 1000)
          ⟨2024, 1, 1, "i1"⟩ 1100).1 ⟨2024, 1, 1, "i2"⟩ 990).2.reason =
        a ++ "Global DD" ++ b) ∧
     (RiskManager.update (RiskManager.update (RiskManager.update
        (RiskManager.init ⟨some 10, none, none⟩ 1000)
        ⟨2024, 1, 1, "i1"⟩ 1100).1 ⟨2024, 1, 1, "i2"⟩ 990).1
        ⟨2024, 1, 1, "i3"⟩ 2000).2.halted = true) := by
  have hfire := RiskManager.update_halted_of_fire s ts e lim hcfg hdd
  have h1 : RiskManager.update (RiskManager.init ⟨some 10, none, none⟩ 1000)
      ⟨2024, 1, 1, "i1"⟩ 1100 =
      (⟨⟨some 10, none, none⟩, 1000, ⟨1100, 0⟩, false, none, false,
        some (2024, 1, 1), 1000, 0, false, some (2024, 1), 1000, 0, 1100⟩,
       ⟨false, false, ""⟩) := by
    norm_num [RiskManager.init, RiskManager.update, RiskManager.period_reset,
      RiskManager.global_check, RiskManager.daily_check, RiskManager.monthly_check,
      DrawdownTracker.init, DrawdownTracker.update, compute_drawdown_pct, max_def,
      Ts.date, Ts.ym, String.intercalate_nil, String.intercalate_single,
      Option.some_ne_none, Option.some.injEq, Prod.mk.injEq]
  have h2 : RiskManager.update
      (⟨⟨some 10, none, none⟩, 1000, ⟨1100, 0⟩, false, none, false,
        some (2024, 1, 1), 1000, 0, false, some (2024, 1), 1000, 0, 1100⟩ : RiskManager)
      ⟨2024, 1, 1, "i2"⟩ 990 =
      (⟨⟨some 10, none, none⟩, 1000, ⟨1100, 10⟩, true, some "i2", false,
        some (2024, 1, 1), 1000, 0, false, some (2024, 1), 1000, 0, 990⟩,
       ⟨true, true, "Global DD 10.00% >= limit 10.00%"⟩) := by
    norm_num [RiskManager.update, RiskManager.period_reset,
      RiskManager.global_check, RiskManager.daily_check, RiskManager.monthly_check,
      DrawdownTracker.update, compute_drawdown_pct, max_def,
      Ts.date, Ts.ym, String.intercalate_nil, String.intercalate_single, fmt2_ten,
      Option.some_ne_none, Option.some.injEq, Prod.mk.injEq]
    rfl
  have h3 : RiskManager.update
      (⟨⟨some 10, none, none⟩, 1000, ⟨1100, 10⟩, true, some "i2", false,
        some (2024, 1, 1), 1000, 0, false, some (2024, 1), 1000, 0, 990⟩ : RiskManager)
      ⟨2024, 1, 1, "i3"⟩ 2000 =
      (⟨⟨some 10, none, none⟩, 1000, ⟨2000, 10⟩, true, some "i2", false,
        some (2024, 1, 1), 1000, 0, false, some (2024, 1), 1000, 0, 2000⟩,
       ⟨true, true, ""⟩) := by
    norm_num [RiskManager.update, RiskManager.period_reset,
      RiskManager.global_check, RiskManager.daily_check, RiskManager.monthly_check,
      DrawdownTracker.update, compute_drawdown_pct, max_def,
      Ts.date, Ts.ym, String.intercalate_nil, String.intercalate_single,
      Option.some_ne_none, Option.some.injEq, Prod.mk.injEq]
  refine ⟨⟨hfire.2.1, hfire.2.2, RiskManager.run_halted rest _ hfire.1⟩, ?_⟩
  rw [h1, h2, h3]
  exact ⟨rfl, rfl, rfl, ⟨"", " 10.00% >= limit 10.00%", rfl⟩, rfl⟩

/-- Witness for C4: concrete halting call (state after the first literal
update, drawdown 10% against limit 10%) followed by one more call. -/
theorem C4_global_halt_permanent_witness :
    ((⟨⟨some 10, none, none⟩, 1000, ⟨1100, 0⟩, false, none, false,
        some (2024, 1, 1), 1000, 0, false, some (2024, 1), 1000, 0, 1100⟩ :
        RiskManager).cfg.max_drawdown_pct = some 10 ∧
     (DrawdownTracker.update
        (⟨⟨some 10, none, none⟩, 1000, ⟨1100, 0⟩, false, none, false,
          some (2024, 1, 1), 1000, 0, false, some (2024, 1), 1000, 0, 1100⟩ :
          RiskManager).global_tracker 990).2.current_drawdown_pct ≥ 10) ∧
    (((RiskManager.update
        (⟨⟨some 10, none, none⟩, 1000, ⟨1100, 0⟩, false, none, false,
          some (2024, 1, 1), 1000, 0, false, some (2024, 1), 1000, 0, 1100⟩ :
          RiskManager) ⟨2024, 1, 1, "i2"⟩ 990).2.halted = true ∧
      (RiskManager.update
        (⟨⟨some 10, none, none⟩, 1000, ⟨1100, 0⟩, false, none, false,
          some (2024, 1, 1), 1000, 0, false, some (2024, 1), 1000, 0, 1100⟩ :
          RiskManager) ⟨2024, 1, 1, "i2"⟩ 990).2.flatten = true ∧
      ∀ a ∈ RiskManager.run (RiskManager.update
        (⟨⟨some 10, none, none⟩, 1000, ⟨1100, 0⟩, false, none, false,
          some (2024, 1, 1), 1000, 0, false, some (2024, 1), 1000, 0, 1100⟩ :
          RiskManager) ⟨2024, 1, 1, "i2"⟩ 990).1 [(⟨2024, 1, 1, "i3"⟩, 2000)],
        a.halted = true ∧ a.flatten = true) ∧
     ((RiskManager.update (RiskManager.init ⟨some 10, none, none⟩ 1000)
        ⟨2024, 1, 1, "i1"⟩ 1100).2.halted = false ∧
      (RiskManager.update (RiskManager.update (RiskManager.init ⟨some 10, none, none⟩ 1000)
        ⟨2024, 1, 1, "i1"⟩ 1100).1 ⟨2024, 1, 1, "i2"⟩ 990).2.flatten = true ∧
      (RiskManager.update (RiskManager.update (RiskManager.init ⟨some 10, none, none⟩ 1000)
        ⟨2024, 1, 1, "i1"⟩ 1100).1 ⟨2024, 1, 1, "i2"⟩ 990).2.halted = true ∧
      (∃ a b : String,
        (RiskManager.update (RiskManager.update (RiskManager.init ⟨some 10, none, none⟩ 1000)
           ⟨2024, 1, 1, "i1"⟩ 1100).1 ⟨2024, 1, 1, "i2"⟩ 990).2.reason =
         a ++ "Global DD" ++ b) ∧
      (RiskManager.update (RiskManager.update (RiskManager.update
         (RiskManager.init ⟨some 10, none, none⟩ 1000)
         ⟨2024, 1, 1, "i1"⟩ 1100).1 ⟨2024, 1, 1, "i2"⟩ 990).1
         ⟨2024, 1, 1, "i3"⟩ 2000).2.halted = true)) :=
  ⟨⟨rfl, by norm_num [DrawdownTracker.update, compute_drawdown_pct, max_def]⟩,
   C4_global_halt_permanent _ ⟨2024, 1, 1, "i2"⟩ 990 10 [(⟨2024, 1, 1, "i3"⟩, 2000)]
     rfl (by norm_num [DrawdownTracker.update, compute_drawdown_pct, max_def])⟩

theorem fmt2_five : fmt2 5 = "5.00" := by
  norm_num [fmt2, round_eq]
  rfl

theorem RiskManager.update_day_start (s : RiskManager) (ts : Ts) (e : ℚ) :
    (RiskManager.update s ts e).1.day_start_equity =
      (RiskManager.period_reset s ts).day_start_equity := by
  simp only [RiskManager.update]
  split_ifs <;> rfl

theorem RiskManager.update_last_equity_close (s : RiskManager) (ts : Ts) (e : ℚ) :
    (RiskManager.update s ts e).1.last_equity_close = e := by
  simp only [RiskManager.update]

theorem RiskManager.period_reset_day_boundary (s : RiskManager) (ts : Ts)
    (h : some ts.date ≠ s.current_day) :
    (RiskManager.period_reset s ts).day_start_equity = s.last_equity_close := by
  simp only [RiskManager.period_reset]
  rw [if_pos h]
  split_ifs <;> rfl

theorem RiskManager.period_reset_pause_independent (s : RiskManager) (ts : Ts)
    (b : Bool) (h : some ts.date ≠ s.current_day) :
    RiskManager.period_reset { s with daily_paused := b } ts =
      RiskManager.period_reset s ts := by
  simp only [RiskManager.period_reset]
  rw [if_pos h, if_pos h]

theorem RiskManager.update_pause_independent (s : RiskManager) (ts : Ts) (e : ℚ)
    (b : Bool) (h : some ts.date ≠ s.current_day) :
    RiskManager.update { s with daily_paused := b } ts e =
      RiskManager.update s ts e := by
  simp only [RiskManager.update,
    RiskManager.period_reset_pause_independent s ts b h]

/-- Claim C5: on every `RiskManager.update` call whose calendar date
differs from the tracked current day, the daily-pause flag is cleared
(the prior flag value has no effect on the call) and the daily baseline
is set to the equity passed to the previous update call
(`_last_equity_close`, which starts at the starting capital and is set
to `current_equity` on every call); consequently with
`daily_dd_limit = 5` and capital 1000, day-1 updates to 1000 then 950
trigger the daily pause, and a day-2 update at 950 returns
`flatten = false`. -/
theorem C5_daily_reset_baseline (s : RiskManager) (ts : Ts) (e : ℚ)
    (h : some ts.date ≠ s.current_day) :
    ((RiskManager.update s ts e).1.day_start_equity = s.last_equity_close ∧
     (∀ b : Bool, RiskManager.update { s with daily_paused := b } ts e =
        RiskManager.update s ts e)) ∧
    (∀ s' : RiskManager, ∀ ts' : Ts, ∀ e' : ℚ,
       (RiskManager.update s' ts' e').1.last_equity_close = e') ∧
    (∀ config : RiskConfig, ∀ cap : ℚ,
       (RiskManager.init config cap).last_equity_close = cap) ∧
    ((RiskManager.update (RiskManager.update (RiskManager.init ⟨none, some 5, none⟩ 1000)
        ⟨2024, 1, 1, "d1"⟩ 1000).1 ⟨2024, 1, 1, "d2"⟩ 950).2.flatten = true ∧
     (RiskManager.update (RiskManager.update (RiskManager.update
        (RiskManager.init ⟨none, some 5, none⟩ 1000)
        ⟨2024, 1, 1, "d1"⟩ 1000).1 ⟨2024, 1, 1, "d2"⟩ 950).1
        ⟨2024, 1, 2, "d3"⟩ 950).2.flatten = false) := by
  have h1 : RiskManager.update (RiskManager.init ⟨none, some 5, none⟩ 1000)
      ⟨2024, 1, 1, "d1"⟩ 1000 =
      (⟨⟨none, some 5, none⟩, 1000, ⟨1000, 0⟩, false, none, false,
        some (2024, 1, 1), 1000, 0, false, some (2024, 1), 1000, 0, 1000⟩,
       ⟨false, false, ""⟩) := by
    norm_num [RiskManager.init, RiskManager.update, RiskManager.period_reset,
      RiskManager.global_check, RiskManager.daily_check, RiskManager.monthly_check,
      DrawdownTracker.init, DrawdownTracker.update, compute_drawdown_pct, max_def,
      Ts.date, Ts.ym, String.intercalate_nil, String.intercalate_single,
      Option.some_ne_none, Option.some.injEq, Prod.mk.injEq]
  have h2 : RiskManager.update
      (⟨⟨none, some 5, none⟩, 1000, ⟨1000, 0⟩, false, none, false,
        some (2024, 1, 1), 1000, 0, false, some (2024, 1), 1000, 0, 1000⟩ : RiskManager)
      ⟨2024, 1, 1, "d2"⟩ 950 =
      (⟨⟨none, some 5, none⟩, 1000, ⟨1000, 5⟩, false, none, true,
        some (2024, 1, 1), 1000, 1, false, some (2024, 1), 1000, 0, 950⟩,
       ⟨true, false, "Daily DD 5.00% >= limit 5.00%"⟩) := by
    norm_num [RiskManager.update, RiskManager.period_reset,
      RiskManager.global_check, RiskManager.daily_check, RiskManager.monthly_check,
      DrawdownTracker.update, compute_drawdown_pct, max_def,
      Ts.date, Ts.ym, String.intercalate_nil, String.intercalate_single, fmt2_five,
      Option.some_ne_none, Option.some.injEq, Prod.mk.injEq]
    rfl
  have h3 : RiskManager.update
      (⟨⟨none, some 5, none⟩, 1000, ⟨1000, 5⟩, false, none, true,
        some (2024, 1, 1), 1000, 1, false, some (2024, 1), 1000, 0, 950⟩ : RiskManager)
      ⟨2024, 1, 2, "d3"⟩ 950 =
      (⟨⟨none, some 5, none⟩, 1000, ⟨1000, 5⟩, false, none, false,
        some (2024, 1, 2), 950, 1, false, some (2024, 1), 1000, 0, 950⟩,
       ⟨false, false, ""⟩) := by
    norm_num [RiskManager.update, RiskManager.period_reset,
      RiskManager.global_check, RiskManager.daily_check, RiskManager.monthly_check,
      DrawdownTracker.update, compute_drawdown_pct, max_def,
      Ts.date, Ts.ym, String.intercalate_nil, String.intercalate_single,
      Option.some_ne_none, Option.some.injEq, Prod.mk.injEq]
  refine ⟨⟨?_, fun b => RiskManager.update_pause_independent s ts e b h⟩,
    fun s' ts' e' => RiskManager.update_last_equity_close s' ts' e',
    fun config cap => rfl, ?_⟩
  · rw [RiskManager.update_day_start s ts e,
      RiskManager.period_reset_day_boundary s ts h]
  · rw [h1, h2, h3]
    exact ⟨rfl, rfl⟩

/-- Witness for C5: first-ever call (tracked day is `none`) on a fresh
manager with `daily_dd_limit = 5` and capital 1000. -/
theorem C5_daily_reset_baseline_witness :
    (some (Ts.date ⟨2024, 1, 1, "d1"⟩) ≠
      (RiskManager.init ⟨none, some 5, none⟩ 1000).current_day) ∧
    (((RiskManager.update (RiskManager.init ⟨none, some 5, none⟩ 1000)
         ⟨2024, 1, 1, "d1"⟩ 1000).1.day_start_equity =
        (RiskManager.init ⟨none, some 5, none⟩ 1000).last_equity_close ∧
      (∀ b : Bool, RiskManager.update
          { RiskManager.init ⟨none, some 5, none⟩ 1000 with daily_paused := b }
          ⟨2024, 1, 1, "d1"⟩ 1000 =
        RiskManager.update (RiskManager.init ⟨none, some 5, none⟩ 1000)
          ⟨2024, 1, 1, "d1"⟩ 1000)) ∧
     (∀ s' : RiskManager, ∀ ts' : Ts, ∀ e' : ℚ,
        (RiskManager.update s' ts' e').1.last_equity_close = e') ∧
     (∀ config : RiskConfig, ∀ cap : ℚ,
        (RiskManager.init config cap).last_equity_close = cap) ∧
     ((RiskManager.update (RiskManager.update (RiskManager.init ⟨none, some 5, none⟩ 1000)
         ⟨2024, 1, 1, "d1"⟩ 1000).1 ⟨2024, 1, 1, "d2"⟩ 950).2.flatten = true ∧
      (RiskManager.update (RiskManager.update (RiskManager.update
         (RiskManager.init ⟨none, some 5, none⟩ 1000)
         ⟨2024, 1, 1, "d1"⟩ 1000).1 ⟨2024, 1, 1, "d2"⟩ 950).1
         ⟨2024, 1, 2, "d3"⟩ 950).2.flatten = false)) :=
  ⟨Option.some_ne_none _,
   C5_daily_reset_baseline (RiskManager.init ⟨none, some 5, none⟩ 1000)
     ⟨2024, 1, 1, "d1"⟩ 1000 (Option.some_ne_none _)⟩

/-! ## `src/execution/models.py` and `src/strategy/signal.py` -/

/-- `OrderIntent` — what the strategy wants the engine to do next bar. -/
structure OrderIntent where
  target_position : ℚ
  reason : String
  stop_loss : Option ℚ
  take_profit : Option ℚ
deriving DecidableEq

/-- `Fill` — one completed round-trip trade. -/
structure Fill where
  entry_ts : String
  exit_ts : String
  side : String
  qty : ℚ
  entry_price : ℚ
  exit_price : ℚ
  pnl : ℚ
deriving DecidableEq

/-- `Signal` — output of the model/strategy layer. -/
structure Signal where
  direction : ℚ
  strength : ℚ
  reason : String
deriving DecidableEq

/-! ## `src/engine/core.py` -/

/-- One OHLCV bar row, as consumed by the engine and the feature
pipeline.  (`open` is a Lean keyword, so that column is `open_`.) -/
structure Bar where
  time : Ts
  open_ : ℚ
  high : ℚ
  low : ℚ
  close : ℚ
  volume : ℚ
deriving DecidableEq

/-- `StrategyContext` — read-only view handed to `Strategy.on_bar`.
`F` is the type of the per-bar feature row (opaque to the engine). -/
structure StrategyContext (F : Type) where
  ts : Ts
  bar : Bar
  features : F
  position : ℚ
  equity : ℚ
  bar_index : Nat

/-- One element of `TradingEngine.equity_records`. -/
structure EquityRecord where
  timestamp : String
  equity : ℚ
  position : ℚ
  unrealized_pnl : ℚ
  realized_pnl : ℚ
deriving DecidableEq

/-- The engine's own state (`TradingEngine.__init__` fields).  The
strategy object is passed explicitly to `process_bar` rather than
stored, so that theorems can quantify over it. -/
structure TradingEngine where
  starting_capital : ℚ
  position_size : ℚ
  equity : ℚ
  position : ℚ
  entry_price : ℚ
  entry_ts : String
  pending_intent : Option OrderIntent
  all_fills : List Fill
  equity_records : List EquityRecord
  risk_manager : RiskManager
deriving DecidableEq

/-- `_execute_order(target_position, position, entry_price, entry_ts,
bar_open, bar_ts)` — execute a position change at this bar's open.
Returns `(new_position, new_entry_price, new_entry_ts, fills)`. -/
def _execute_order (target_position position entry_price : ℚ)
    (entry_ts : String) (bar_open : ℚ) (bar_ts : String) :
    ℚ × ℚ × String × List Fill :=
  if position = target_position then
    (position, entry_price, entry_ts, [])
  else
    -- close existing position if flattening or flipping
    let closed : ℚ × ℚ × List Fill :=
      if position ≠ 0 ∧
          ((position > 0 ∧ target_position ≤ 0) ∨
           (position < 0 ∧ target_position ≥ 0)) then
        let exit_price := bar_open
        let pnl := if position > 0 then (exit_price - entry_price) * |position|
          else (entry_price - exit_price) * |position|
        let side := if position > 0 then "long" else "short"
        (0, 0, [⟨entry_ts, bar_ts, side, |position|, entry_price, exit_price, pnl⟩])
      else (position, entry_price, [])
    -- open new position (or flip into new)
    if target_position ≠ 0 ∧ closed.1 = 0 then
      (target_position, bar_open, bar_ts, closed.2.2)
    else
      (closed.1, closed.2.1, entry_ts, closed.2.2)

/-- `TradingEngine._decide(signal, risk_action)` — Signal + RiskAction →
OrderIntent (sizing + risk gate). -/
def TradingEngine._decide (e : TradingEngine) (signal : Signal)
    (risk_action : RiskAction) : OrderIntent :=
  if risk_action.flatten then
    ⟨0, "risk:" ++ risk_action.reason, none, none⟩
  else
    ⟨signal.direction * e.position_size, signal.reason, none, none⟩

/-- The target position resolved at the start of `process_bar`: the
previous bar's stored intent, or hold the current position. -/
def TradingEngine.target_position (e : TradingEngine) : ℚ :=
  match e.pending_intent with
  | some it => it.target_position
  | none => e.position

/-- The `_execute_order` call made by `process_bar` on `bar_row`. -/
def TradingEngine.exec_result (e : TradingEngine) (bar_row : Bar) :
    ℚ × ℚ × String × List Fill :=
  _execute_order e.target_position e.position e.entry_price e.entry_ts
    bar_row.open_ bar_row.time.iso

/-- Realized equity after applying this bar's fill PnLs. -/
def TradingEngine.equity_after_fills (e : TradingEngine) (bar_row : Bar) : ℚ :=
  e.equity + ((e.exec_result bar_row).2.2.2.map Fill.pnl).sum

/-- Mark-to-market unrealized PnL at this bar's close. -/
def TradingEngine.unrealized_pnl (e : TradingEngine) (bar_row : Bar) : ℚ :=
  let position := (e.exec_result bar_row).1
  let entry_price := (e.exec_result bar_row).2.1
  if position ≠ 0 then
    if position > 0 then (bar_row.close - entry_price) * |position|
    else (entry_price - bar_row.close) * |position|
  else 0

/-- `current_equity` = realized + unrealized, as computed in `process_bar`. -/
def TradingEngine.current_equity (e : TradingEngine) (bar_row : Bar) : ℚ :=
  e.equity_after_fills bar_row + e.unrealized_pnl bar_row

/-- The risk-manager call made by `process_bar`. -/
def TradingEngine.risk_update (e : TradingEngine) (bar_row : Bar) :
    RiskManager × RiskAction :=
  RiskManager.update e.risk_manager bar_row.time (e.current_equity bar_row)

/-- Engine state after the execution / MTM / risk / record steps of
`process_bar` (everything before the terminal-bar check; the pending
intent is not yet touched). -/
def TradingEngine.state_after_execution (e : TradingEngine) (bar_row : Bar) :
    TradingEngine :=
  { e with
    equity := e.equity_after_fills bar_row,
    position := (e.exec_result bar_row).1,
    entry_price := (e.exec_result bar_row).2.1,
    entry_ts := (e.exec_result bar_row).2.2.1,
    all_fills := e.all_fills ++ (e.exec_result bar_row).2.2.2,
    equity_records := e.equity_records ++
      [⟨bar_row.time.iso, e.current_equity bar_row, (e.exec_result bar_row).1,
        e.unrealized_pnl bar_row,
        e.equity_after_fills bar_row - e.starting_capital⟩],
    risk_manager := (e.risk_update bar_row).1 }

/-- The strategy context built by `process_bar` (position and equity are
the post-execution values). -/
def TradingEngine.bar_context {F : Type} (e : TradingEngine) (bar_row : Bar)
    (features_row : F) (bar_index : Nat) : StrategyContext F :=
  ⟨bar_row.time, bar_row, features_row, (e.exec_result bar_row).1,
    e.current_equity bar_row, bar_index⟩

/-- `TradingEngine.process_bar(bar_row, features_row, bar_index, is_last)`:
execute the pending intent at open, mark to market at close, update risk,
record equity; on the last bar clear the pending intent and stop,
otherwise evaluate the strategy and store the next intent. -/
def TradingEngine.process_bar {F : Type}
    (strategy : StrategyContext F → Signal) (e : TradingEngine)
    (bar_row : Bar) (features_row : F) (bar_index : Nat) (is_last : Bool) :
    TradingEngine :=
  let s1 := e.state_after_execution bar_row
  if is_last then
    { s1 with pending_intent := none }
  else
    let signal := strategy (e.bar_context bar_row features_row bar_index)
    let intent := e._decide signal (e.risk_update bar_row).2
    { s1 with pending_intent := some intent }

/-! ### Execution-step lemmas -/

theorem _execute_order_flip (target_position position entry_price : ℚ)
    (entry_ts : String) (bar_open : ℚ) (bar_ts : String)
    (h : (position > 0 ∧ target_position < 0) ∨
         (position < 0 ∧ target_position > 0)) :
    _execute_order target_position position entry_price entry_ts bar_open bar_ts =
      (target_position, bar_open, bar_ts,
       [⟨entry_ts, bar_ts, if position > 0 then "long" else "short", |position|,
         entry_price, bar_open,
         if position > 0 then (bar_open - entry_price) * |position|
         else (entry_price - bar_open) * |position|⟩]) := by
  have hne : position ≠ target_position := by
    rcases h with ⟨h1, h2⟩ | ⟨h1, h2⟩ <;> intro he <;> rw [he] at h1 <;> linarith
  have htgt : target_position ≠ 0 := by
    rcases h with ⟨h1, h2⟩ | ⟨h1, h2⟩
    · exact ne_of_lt h2
    · exact ne_of_gt h2
  have hcond : position ≠ 0 ∧
      ((position > 0 ∧ target_position ≤ 0) ∨
       (position < 0 ∧ target_position ≥ 0)) := by
    rcases h with ⟨h1, h2⟩ | ⟨h1, h2⟩
    · exact ⟨ne_of_gt h1, Or.inl ⟨h1, le_of_lt h2⟩⟩
    · exact ⟨ne_of_lt h1, Or.inr ⟨h1, le_of_lt h2⟩⟩
  simp only [_execute_order, if_neg hne, if_pos hcond]
  simp [htgt]

/-- Claim C1: on a flip (nonzero position, opposite-sign nonzero target),
`_execute_order` closes the whole position at this bar's open, appends
exactly one `Fill` (the close leg), and reopens within the same call:
the returned position equals the target and the new entry price and
entry timestamp are this bar's open and timestamp. -/
theorem C1_flip_close_reopen (target_position position entry_price : ℚ)
    (entry_ts : String) (bar_open : ℚ) (bar_ts : String)
    (h : (position > 0 ∧ target_position < 0) ∨
         (position < 0 ∧ target_position > 0)) :
    (_execute_order target_position position entry_price entry_ts bar_open bar_ts).1 =
      target_position ∧
    (_execute_order target_position position entry_price entry_ts bar_open bar_ts).2.1 =
      bar_open ∧
    (_execute_order target_position position entry_price entry_ts bar_open bar_ts).2.2.1 =
      bar_ts ∧
    (_execute_order target_position position entry_price entry_ts bar_open bar_ts).2.2.2 =
      [⟨entry_ts, bar_ts, if position > 0 then "long" else "short", |position|,
        entry_price, bar_open,
        if position > 0 then (bar_open - entry_price) * |position|
        else (entry_price - bar_open) * |position|⟩] := by
  rw [_execute_order_flip target_position position entry_price entry_ts bar_open bar_ts h]
  exact ⟨rfl, rfl, rfl, rfl⟩

/-- Witness for C1: flip from long 1 to short 2 at open 105. -/
theorem C1_flip_close_reopen_witness :
    (((1 : ℚ) > 0 ∧ (-2 : ℚ) < 0) ∨ ((1 : ℚ) < 0 ∧ (-2 : ℚ) > 0)) ∧
    ((_execute_order (-2) 1 100 "t0" 105 "t1").1 = -2 ∧
     (_execute_order (-2) 1 100 "t0" 105 "t1").2.1 = 105 ∧
     (_execute_order (-2) 1 100 "t0" 105 "t1").2.2.1 = "t1" ∧
     (_execute_order (-2) 1 100 "t0" 105 "t1").2.2.2 =
       [⟨"t0", "t1", if (1 : ℚ) > 0 then "long" else "short", |(1 : ℚ)|,
         100, 105,
         if (1 : ℚ) > 0 then ((105 : ℚ) - 100) * |(1 : ℚ)|
         else ((100 : ℚ) - 105) * |(1 : ℚ)|⟩]) :=
  ⟨Or.inl ⟨by norm_num, by norm_num⟩,
   C1_flip_close_reopen (-2) 1 100 "t0" 105 "t1"
     (Or.inl ⟨by norm_num, by norm_num⟩)⟩

/-- Counterexample to claim C2: at the flip input (position 1, target −1)
the position returned by the same `_execute_order` call is −1, not 0. -/
theorem C2_flip_counterexample :
    (_execute_order (-1) 1 100 "t0" 105 "t1").1 = -1 ∧
    (_execute_order (-1) 1 100 "t0" 105 "t1").1 ≠ 0 := by
  constructor <;> norm_num [_execute_order]

/-- Claim C2 (amended): on a flip the position is fully closed AND
immediately reopened within the same `_execute_order` call — the
returned position equals the (nonzero) target, never zero; reopening
does not wait for a later call with a flat position. -/
theorem C2_flip_reopens_same_call (target_position position entry_price : ℚ)
    (entry_ts : String) (bar_open : ℚ) (bar_ts : String)
    (h : (position > 0 ∧ target_position < 0) ∨
         (position < 0 ∧ target_position > 0)) :
    (_execute_order target_position position entry_price entry_ts bar_open bar_ts).1 =
      target_position ∧
    (_execute_order target_position position entry_price entry_ts bar_open bar_ts).1 ≠ 0 := by
  rw [_execute_order_flip target_position position entry_price entry_ts bar_open bar_ts h]
  refine ⟨rfl, ?_⟩
  rcases h with ⟨_, h2⟩ | ⟨_, h2⟩
  · exact ne_of_lt h2
  · exact ne_of_gt h2

/-- Witness for the amended C2: flip from long 1 to short 1. -/
theorem C2_flip_reopens_same_call_witness :
    (((1 : ℚ) > 0 ∧ (-1 : ℚ) < 0) ∨ ((1 : ℚ) < 0 ∧ (-1 : ℚ) > 0)) ∧
    ((_execute_order (-1) 1 100 "t0" 105 "t1").1 = -1 ∧
     (_execute_order (-1) 1 100 "t0" 105 "t1").1 ≠ 0) :=
  ⟨Or.inl ⟨by norm_num, by norm_num⟩,
   C2_flip_reopens_same_call (-1) 1 100 "t0" 105 "t1"
     (Or.inl ⟨by norm_num, by norm_num⟩)⟩

/-- Claim C9: a same-sign resize (current position and target both
nonzero with the same sign but different magnitudes) is silently
ignored: position, entry price and entry timestamp are unchanged and no
`Fill` is produced. -/
theorem C9_same_sign_resize_ignored (target_position position entry_price : ℚ)
    (entry_ts : String) (bar_open : ℚ) (bar_ts : String)
    (h : (position > 0 ∧ target_position > 0) ∨
         (position < 0 ∧ target_position < 0))
    (hne : position ≠ target_position) :
    _execute_order target_position position entry_price entry_ts bar_open bar_ts =
      (position, entry_price, entry_ts, []) := by
  have hcond : ¬(position ≠ 0 ∧
      ((position > 0 ∧ target_position ≤ 0) ∨
       (position < 0 ∧ target_position ≥ 0))) := by
    rcases h with ⟨h1, h2⟩ | ⟨h1, h2⟩ <;>
      rintro ⟨-, ⟨h3, h4⟩ | ⟨h3, h4⟩⟩ <;> linarith
  have hpos : position ≠ 0 := by
    rcases h with ⟨h1, _⟩ | ⟨h1, _⟩
    · exact ne_of_gt h1
    · exact ne_of_lt h1
  simp only [_execute_order, if_neg hne, if_neg hcond]
  rw [if_neg]
  rintro ⟨-, h0⟩
  exact hpos h0

/-- Witness for C9: resize long 1 → long 2 leaves everything unchanged. -/
theorem C9_same_sign_resize_ignored_witness :
    ((((1 : ℚ) > 0 ∧ (2 : ℚ) > 0) ∨ ((1 : ℚ) < 0 ∧ (2 : ℚ) < 0)) ∧
     (1 : ℚ) ≠ 2) ∧
    _execute_order 2 1 100 "t0" 105 "t1" = (1, 100, "t0", []) :=
  ⟨⟨Or.inl ⟨by norm_num, by norm_num⟩, by norm_num⟩,
   C9_same_sign_resize_ignored 2 1 100 "t0" 105 "t1"
     (Or.inl ⟨by norm_num, by norm_num⟩) (by norm_num)⟩

/-- Claim C3: a signal produced at bar i changes position state only at
bar i+1's open via the pending intent: within one `process_bar` call the
resulting position is exactly the execution of the intent stored on
entry, independent of the strategy's output on this bar, and the
strategy's output is only stored as the next pending intent.  On the
last bar (`is_last = true`) the pending intent is cleared and the call
returns before strategy evaluation (the result does not depend on the
strategy at all), so a decision on the final bar never produces an
execution. -/
theorem C3_signal_lag_and_last_bar {F : Type}
    (strategy strategy2 : StrategyContext F → Signal) (e : TradingEngine)
    (bar_row : Bar) (features_row : F) (bar_index : Nat) :
    (TradingEngine.process_bar strategy e bar_row features_row bar_index
        true).pending_intent = none ∧
    TradingEngine.process_bar strategy e bar_row features_row bar_index true =
      TradingEngine.process_bar strategy2 e bar_row features_row bar_index true ∧
    (∀ is_last : Bool,
      (TradingEngine.process_bar strategy e bar_row features_row bar_index
          is_last).position = (e.exec_result bar_row).1 ∧
      (TradingEngine.process_bar strategy e bar_row features_row bar_index
          is_last).position =
        (TradingEngine.process_bar strategy2 e bar_row features_row bar_index
          is_last).position) ∧
    (TradingEngine.process_bar strategy e bar_row features_row bar_index
        false).pending_intent =
      some (e._decide (strategy (e.bar_context bar_row features_row bar_index))
        (e.risk_update bar_row).2) := by
  refine ⟨rfl, rfl, ?_, rfl⟩
  intro is_last
  cases is_last <;> exact ⟨rfl, rfl⟩

/-! ## `src/indicators/core/pipeline.py`

`Indicator.compute` and `Transform.apply` are modelled as column
functions (`List Bar → List ℚ` and `List ℚ → List ℚ`): each produces the
single feature column that `FeaturePipeline.transform` renames to the
spec's name.  The interface contract that they preserve the row count is
a hypothesis of the C8 theorem.  `validate_ohlcv` only checks that the
five OHLCV columns exist, which the `Bar` record guarantees. -/

/-- The `Indicator` protocol (`interfaces.py`). -/
structure Indicator where
  name : String
  lookback : Nat
  compute : List Bar → List ℚ

/-- The `Transform` protocol (`interfaces.py`). -/
structure Transform where
  name : String
  lookback : Nat
  apply : List ℚ → List ℚ

/-- `FeatureSpec` — base indicator + ordered transforms + optional alias. -/
structure FeatureSpec where
  base : Indicator
  transforms : List Transform
  -- `alias` is a Lean keyword, hence the trailing underscore
  alias_ : Option String

/-- `FeatureSpec.name` — the alias, or base name followed by the
transform name suffixes. -/
def FeatureSpec.name (spec : FeatureSpec) : String :=
  match spec.alias_ with
  | some a => a
  | none => spec.transforms.foldl (fun n t => n ++ t.name) spec.base.name

/-- The column a spec produces: base indicator, then each transform in
sequence. -/
def FeatureSpec.column (spec : FeatureSpec) (ohlcv : List Bar) : List ℚ :=
  spec.transforms.foldl (fun c t => t.apply c) (spec.base.compute ohlcv)

/-- `FeaturePipeline` — the configured list of specs. -/
structure FeaturePipeline where
  specs : List FeatureSpec

/-- Column ordering used by `sorted(X.columns)`: compare names. -/
abbrev colLe (a b : String × List ℚ) : Prop := a.1 ≤ b.1

instance : DecidableRel colLe :=
  fun a b => inferInstanceAs (Decidable (a.1 ≤ b.1))

instance : IsTotal (String × List ℚ) colLe :=
  ⟨fun a b => le_total a.1 b.1⟩

instance : IsTrans (String × List ℚ) colLe :=
  ⟨fun _ _ _ h1 h2 => le_trans h1 h2⟩

/-- `FeaturePipeline.transform(ohlcv)`: one named column per spec,
concatenated and re-indexed with the column names sorted (Python's
`sorted` is a stable sort; with distinct names, as produced by the
naming rule, this is exactly a stable sort of the named columns). -/
def FeaturePipeline.transform (p : FeaturePipeline) (ohlcv : List Bar) :
    List (String × List ℚ) :=
  List.insertionSort colLe
    (p.specs.map fun spec => (spec.name, spec.column ohlcv))

theorem Transform.foldl_length (ts : List Transform) :
    ∀ c : List ℚ, (∀ t ∈ ts, ∀ x : List ℚ, (t.apply x).length = x.length) →
      (ts.foldl (fun c t => t.apply c) c).length = c.length := by
  induction ts with
  | nil => intro c _; rfl
  | cons t ts ih =>
    intro c h
    rw [List.foldl_cons,
      ih (t.apply c) (fun u hu x => h u (List.mem_cons_of_mem t hu) x)]
    exact h t (List.mem_cons_self t ts) c

theorem FeatureSpec.column_length (spec : FeatureSpec) (ohlcv : List Bar)
    (hbase : (spec.base.compute ohlcv).length = ohlcv.length)
    (htrans : ∀ t ∈ spec.transforms, ∀ c : List ℚ, (t.apply c).length = c.length) :
    (spec.column ohlcv).length = ohlcv.length := by
  unfold FeatureSpec.column
  rw [Transform.foldl_length spec.transforms (spec.base.compute ohlcv) htrans]
  exact hbase

theorem FeaturePipeline.transform_names_perm (p : FeaturePipeline) (ohlcv : List Bar) :
    ((p.transform ohlcv).map Prod.fst).Perm (p.specs.map FeatureSpec.name) := by
  have hperm := List.perm_insertionSort colLe
    (p.specs.map fun spec => (spec.name, spec.column ohlcv))
  have hnames : ((p.specs.map fun spec => (spec.name, spec.column ohlcv)).map
      Prod.fst) = p.specs.map FeatureSpec.name := by
    rw [List.map_map]
    rfl
  exact hnames ▸ (hperm.map Prod.fst)

theorem FeaturePipeline.transform_names_sorted (p : FeaturePipeline) (ohlcv : List Bar) :
    List.Sorted (fun a b : String => a ≤ b) ((p.transform ohlcv).map Prod.fst) := by
  unfold FeaturePipeline.transform
  have h : List.Sorted colLe (List.insertionSort colLe
      (p.specs.map fun spec => (spec.name, spec.column ohlcv))) :=
    List.sorted_insertionSort colLe
      (p.specs.map fun spec => (spec.name, spec.column ohlcv))
  exact List.pairwise_map.mpr h

/-- Claim C8: `FeaturePipeline.transform` returns one column per spec
(named by the spec's naming rule), each with one row per input bar, with
the columns sorted lexicographically by name — so the same multiset of
specs supplied in any configuration order yields an identical column
order.  The row-count conclusion assumes the `Indicator`/`Transform`
interface contract that `compute` and `apply` preserve the row count. -/
theorem C8_pipeline_columns (p : FeaturePipeline) (ohlcv : List Bar)
    (hbase : ∀ spec ∈ p.specs, (spec.base.compute ohlcv).length = ohlcv.length)
    (htrans : ∀ spec ∈ p.specs, ∀ t ∈ spec.transforms,
      ∀ c : List ℚ, (t.apply c).length = c.length) :
    (p.transform ohlcv).length = p.specs.length ∧
    (∀ col ∈ p.transform ohlcv, col.2.length = ohlcv.length) ∧
    List.Sorted colLe (p.transform ohlcv) ∧
    ((p.transform ohlcv).map Prod.fst).Perm (p.specs.map FeatureSpec.name) ∧
    ∀ q : FeaturePipeline, q.specs.Perm p.specs →
      (q.transform ohlcv).map Prod.fst = (p.transform ohlcv).map Prod.fst := by
  have hperm := List.perm_insertionSort colLe
    (p.specs.map fun spec => (spec.name, spec.column ohlcv))
  have htr : p.transform ohlcv = List.insertionSort colLe
      (p.specs.map fun spec => (spec.name, spec.column ohlcv)) := rfl
  refine ⟨?_, ?_, ?_, FeaturePipeline.transform_names_perm p ohlcv, ?_⟩
  · rw [htr, hperm.length_eq, List.length_map]
  · intro col hcol
    rw [htr] at hcol
    have hmem := hperm.subset hcol
    obtain ⟨spec, hspec, hcoleq⟩ := List.mem_map.mp hmem
    rw [← hcoleq]
    exact FeatureSpec.column_length spec ohlcv (hbase spec hspec)
      (htrans spec hspec)
  · rw [htr]
    exact List.sorted_insertionSort colLe _
  · intro q hq
    exact List.eq_of_perm_of_sorted
      ((FeaturePipeline.transform_names_perm q ohlcv).trans
        ((hq.map FeatureSpec.name).trans
          (FeaturePipeline.transform_names_perm p ohlcv).symm))
      (FeaturePipeline.transform_names_sorted q ohlcv)
      (FeaturePipeline.transform_names_sorted p ohlcv)

/-- A two-spec pipeline (no transforms, no aliases) whose configured
order is not alphabetical; used to witness C8. -/
def samplePipeline : FeaturePipeline :=
  ⟨[⟨⟨"b_ind", 0, fun o => o.map Bar.close⟩, [], none⟩,
    ⟨⟨"a_ind", 0, fun o => o.map Bar.high⟩, [], none⟩]⟩

/-- Witness for C8 at `samplePipeline` on the empty bar list. -/
theorem C8_pipeline_columns_witness :
    ((∀ spec ∈ samplePipeline.specs,
        (spec.base.compute ([] : List Bar)).length = ([] : List Bar).length) ∧
     (∀ spec ∈ samplePipeline.specs, ∀ t ∈ spec.transforms,
        ∀ c : List ℚ, (t.apply c).length = c.length)) ∧
    ((samplePipeline.transform ([] : List Bar)).length =
        samplePipeline.specs.length ∧
     (∀ col ∈ samplePipeline.transform ([] : List Bar),
        col.2.length = ([] : List Bar).length) ∧
     List.Sorted colLe (samplePipeline.transform ([] : List Bar)) ∧
     ((samplePipeline.transform ([] : List Bar)).map Prod.fst).Perm
        (samplePipeline.specs.map FeatureSpec.name) ∧
     ∀ q : FeaturePipeline, q.specs.Perm samplePipeline.specs →
        (q.transform ([] : List Bar)).map Prod.fst =
          (samplePipeline.transform ([] : List Bar)).map Prod.fst) :=
  ⟨⟨by intro spec h; fin_cases h <;> rfl,
    by intro spec h t ht c; fin_cases h <;> simp at ht⟩,
   C8_pipeline_columns samplePipeline ([] : List Bar)
     (by intro spec h; fin_cases h <;> rfl)
     (by intro spec h t ht c; fin_cases h <;> simp at ht)⟩

/-! ## `src/replay/validation.py`

A DataFrame is a list of named columns; a cell is `none` for NaN/null.
The `time` column's values stand for the parsed UTC timestamps (already
comparable), so `pd.to_datetime` is the identity here. -/

/-- DataFrame model for `validate_bars`. -/
abbrev Frame := List (String × List (Option ℚ))

/-- Column lookup (`name in df.columns` / `df[name]`). -/
def Frame.col? (df : Frame) (name : String) : Option (List (Option ℚ)) :=
  (df.find? (fun c => c.1 == name)).map Prod.snd

/-- `times.duplicated().sum()`: entries equal to some earlier entry. -/
def countDuplicates (xs : List ℚ) : Nat := xs.length - xs.eraseDups.length

/-- `Series.is_monotonic_increasing` (non-strict). -/
def isMonotonicIncreasing : List ℚ → Bool
  | [] => true
  | [_] => true
  | a :: b :: rest => decide (a ≤ b) && isMonotonicIncreasing (b :: rest)

/-- `df[c].isna().any()` for a column that may be absent. -/
def hasNaN (df : Frame) (c : String) : Bool :=
  match Frame.col? df c with
  | some col => col.any (fun v => v.isNone)
  | none => false

/-- `validate_bars(df)` — fail-fast data-integrity checks; `Except.error`
models the raised `ValueError`. -/
def validate_bars (df : Frame) : Except String Unit :=
  match Frame.col? df "time" with
  | none => Except.error "Missing \x27time\x27 column"
  | some time =>
    let nNull := (time.filter (fun v => v.isNone)).length
    if nNull > 0 then
      Except.error ("Null timestamps found: " ++ toString nNull ++ " rows")
    else
      let times := time.filterMap id
      let nDupes := countDuplicates times
      if nDupes > 0 then
        Except.error ("Duplicate timestamps found: " ++ toString nDupes)
      else if !isMonotonicIncreasing times then
        Except.error "Timestamps not monotonic increasing"
      else
        let present := ["open", "high", "low", "close"].filter
          (fun c => (Frame.col? df c).isSome)
        let na_cols := present.filter (fun c => hasNaN df c)
        if na_cols ≠ [] then
          Except.error ("NaN values in " ++ toString na_cols)
        else
          match Frame.col? df "spread" with
          | some sp =>
            let neg := (sp.filter (fun v => match v with
              | some x => decide (x < 0)
              | none => false)).length
            if neg > 0 then
              Except.error ("Negative spread found: " ++ toString neg ++ " rows")
            else Except.ok ()
          | none => Except.ok ()

/-- Claim C10: `validate_bars` raises no error for a DataFrame whose
`time` column is present, null-free, duplicate-free and monotonic but
which is missing some or all of the open/high/low/close columns: the
NaN check applies only to OHLC columns actually present (`hasNaN` is
false for an absent column), so absent price columns pass the gate.
(The spread check, orthogonal to the claim, must also pass.) -/
theorem C10_validate_bars_missing_ohlc (df : Frame) (time : List (Option ℚ))
    (htime : Frame.col? df "time" = some time)
    (hnonull : time.all Option.isSome = true)
    (hnodup : countDuplicates (time.filterMap id) = 0)
    (hmono : isMonotonicIncreasing (time.filterMap id) = true)
    (hohlc : (["open", "high", "low", "close"].all
        (fun c => !hasNaN df c)) = true)
    (hspread : (match Frame.col? df "spread" with
      | some sp => sp.all (fun v => match v with
          | some x => decide (0 ≤ x)
          | none => true)
      | none => true) = true) :
    validate_bars df = Except.ok () := by
  have h1 : (time.filter (fun v => v.isNone)).length = 0 := by
    rw [List.length_eq_zero, List.filter_eq_nil_iff]
    intro a ha
    have hs := List.all_eq_true.mp hnonull a ha
    cases a with
    | none => simp at hs
    | some x => simp
  have h2 : (["open", "high", "low", "close"].filter
      (fun c => (Frame.col? df c).isSome)).filter (fun c => hasNaN df c) = [] := by
    rw [List.filter_eq_nil_iff]
    intro c hc
    have hc4 : c ∈ ["open", "high", "low", "close"] := (List.mem_filter.mp hc).1
    have hn := List.all_eq_true.mp hohlc c hc4
    simp only [Bool.not_eq_true'] at hn
    simp [hn]
  simp only [validate_bars, htime, h1, hnodup, hmono, h2, gt_iff_lt,
    lt_irrefl, if_false, Bool.not_true, ne_eq, not_true_eq_false,
    Bool.false_eq_true]
  cases hsp : Frame.col? df "spread" with
  | none => rfl
  | some sp =>
    rw [hsp] at hspread
    have h3 : (sp.filter (fun v => match v with
        | some x => decide (x < 0)
        | none => false)).length = 0 := by
      rw [List.length_eq_zero, List.filter_eq_nil_iff]
      intro v hv
      have hvs := List.all_eq_true.mp hspread v hv
      cases v with
      | none => simp
      | some x =>
        simp only [decide_eq_true_eq] at hvs ⊢
        exact not_lt.mpr hvs
    simp [h3]

/-- A frame with a valid `time` column, a NaN-bearing `volume` column,
and no open/high/low/close columns at all; used to witness C10. -/
def sampleFrame : Frame :=
  [("time", [some 1, some 2]), ("volume", [none, some 5])]

/-- Witness for C10: `sampleFrame` is missing every OHLC column (and
even carries a NaN elsewhere) yet passes `validate_bars`. -/
theorem C10_validate_bars_missing_ohlc_witness :
    (Frame.col? sampleFrame "time" = some [some 1, some 2] ∧
     ([some (1 : ℚ), some 2].all Option.isSome = true) ∧
     countDuplicates ([some (1 : ℚ), some 2].filterMap id) = 0 ∧
     isMonotonicIncreasing ([some (1 : ℚ), some 2].filterMap id) = true ∧
     (["open", "high", "low", "close"].all
        (fun c => !hasNaN sampleFrame c)) = true ∧
     (match Frame.col? sampleFrame "spread" with
      | some sp => sp.all (fun v => match v with
          | some x => decide (0 ≤ x)
          | none => true)
      | none => true) = true) ∧
    validate_bars sampleFrame = Except.ok () :=
  ⟨⟨rfl, rfl, rfl, rfl, rfl, rfl⟩,
   C10_validate_bars_missing_ohlc sampleFrame [some 1, some 2]
     rfl rfl rfl rfl rfl rfl⟩
